import Mathlib

/-!
Verification of the StoryPath location-unlock engine
(`src/StoryPath/components/ProjectHomeScreen.jsx` and `src/StoryPath/api/api.js`).

The JavaScript source is shallowly embedded: JS numbers reaching the
proximity logic are modelled by `JsVal` (null, undefined, NaN, or an exact
rational), the engine's React state and refs by `EngineState`, and the
backend / storage side effects by an explicit event list `Ev` together with
a failure environment `Env` that says which awaited calls throw.
The geolib `getDistance` collaborator is an oracle parameter
`dist : ℚ → ℚ → ℚ → ℚ → ℚ` giving the great-circle distance in metres.
-/

/-- Model of a JavaScript value in the coordinate positions: `null`,
`undefined`, `NaN`, or a finite number (modelled exactly as a rational;
the coordinate strings handled by the app are plain decimals). -/
inductive JsVal where
  | null
  | undef
  | nan
  | num (q : ℚ)
  deriving Repr, DecidableEq

/-- JavaScript loose equality test `v == null`, used by
`handleLocationUpdate`'s filter: true exactly for `null` and `undefined`
(`NaN == null` and `0 == null` are false in JS). -/
def JsVal.looseEqNull : JsVal → Bool
  | JsVal.null => true
  | JsVal.undef => true
  | _ => false

/-- JavaScript comparison `v <= q` where `v` may be `NaN`: any comparison
with `NaN` is false. `null`/`undefined` never reach this comparison in the
code path modelled (they are filtered first). -/
def jsLe (v : JsVal) (q : ℚ) : Bool :=
  match v with
  | JsVal.num a => decide (a ≤ q)
  | _ => false

/-- Digits of a decimal literal folded to a natural number, as JS `Number`
reads consecutive digit characters. -/
def digitsToNat (cs : List Char) : Nat :=
  cs.foldl (fun a c => a * 10 + (c.toNat - 48)) 0

/-- The whitespace characters JS `Number` strips from the ends of its
string argument (the forms occurring in the app's data). -/
def isJsSpace (c : Char) : Bool := c = ' ' || c = '\t' || c = '\n' || c = '\r'

/-- Leading and trailing whitespace removed, as JS `Number` does before
reading the literal. -/
def trimChars (cs : List Char) : List Char :=
  ((cs.dropWhile isJsSpace).reverse.dropWhile isJsSpace).reverse

/-- JS `string.split(",")` on the character list: the list of segments
between commas, with empty segments kept (`",".split(",")` is
`["", ""]`). -/
def jsSplitOnComma (cs : List Char) : List (List Char) :=
  match cs with
  | [] => [[]]
  | c :: rest =>
    let r := jsSplitOnComma rest
    if c = ',' then [] :: r
    else (c :: r.headD []) :: r.tail

/-- Unsigned decimal fragment of JS `Number(string)` semantics: digits with
an optional decimal point (`"12"`, `"12.5"`, `".5"`, `"12."`); anything
else is not a number. Exponent, hexadecimal and `Infinity` forms never
occur in the app's coordinate strings and are outside the modelled
fragment. -/
def parseUnsignedDecimal (cs : List Char) : Option ℚ :=
  let intPart := cs.takeWhile Char.isDigit
  let rest := cs.dropWhile Char.isDigit
  match rest with
  | [] => if intPart.isEmpty then none else some ((digitsToNat intPart : ℚ))
  | '.' :: frac =>
    if frac.all Char.isDigit && !(intPart.isEmpty && frac.isEmpty) then
      some ((digitsToNat intPart : ℚ) + (digitsToNat frac : ℚ) / ((10 : ℚ) ^ frac.length))
    else
      none
  | _ => none

/-- Signed decimal fragment of JS `Number(string)`: optional leading sign. -/
def parseSignedDecimal (cs : List Char) : Option ℚ :=
  match cs with
  | '-' :: rest => (parseUnsignedDecimal rest).map (fun q => -q)
  | '+' :: rest => parseUnsignedDecimal rest
  | _ => parseUnsignedDecimal cs

/-- JS `Number(string)` on the decimal fragment, over the string's
characters: surrounding whitespace is trimmed, the empty (or
all-whitespace) string converts to `0`, a signed decimal literal converts
to its value, and any other string converts to `NaN`. -/
def jsNumber (cs : List Char) : JsVal :=
  let t := trimChars cs
  if t.isEmpty then JsVal.num 0
  else
    match parseSignedDecimal t with
    | some q => JsVal.num q
    | none => JsVal.nan

/-- Result of `parsePositionString`: the two fields spread onto a location
object. -/
structure ParsedPos where
  latitude : JsVal
  longitude : JsVal
  deriving Repr, DecidableEq

/-- JS `positionString.replace(/[()]/g, "")`: every parenthesis character
removed. -/
def stripParens (cs : List Char) : List Char :=
  cs.filter (fun c => !(c = '(' || c = ')'))

/-- Embedding of `parsePositionString` (ProjectHomeScreen.jsx lines 64-68):
a falsy argument (absent, or the empty string) yields `null` coordinates;
otherwise parentheses are stripped, the string is split on commas, and each
piece is converted with `Number`. Indexing past the end of the pieces
(`coords[1]` of a one-piece split) yields `undefined`. -/
def parsePositionString (positionString : Option String) : ParsedPos :=
  match positionString with
  | none => { latitude := JsVal.null, longitude := JsVal.null }
  | some s =>
    if s.toList.isEmpty then { latitude := JsVal.null, longitude := JsVal.null }
    else
      let coords := (jsSplitOnComma (stripParens s.toList)).map jsNumber
      { latitude := coords.getD 0 JsVal.undef, longitude := coords.getD 1 JsVal.undef }

/-- A location record as returned by `getLocations` (api.js): the fields the
unlock engine reads. `score_points` is `none` when the backend field is
null or absent (JS `Number(x) || 0` then gives `0`). -/
structure RawLocation where
  id : Nat
  location_name : String
  location_position : Option String
  score_points : Option Int
  location_content : Option String
  deriving Repr, DecidableEq

/-- A location after `fetchData` spreads `parsePositionString` onto it
(ProjectHomeScreen.jsx lines 97-100). -/
structure Location extends RawLocation where
  latitude : JsVal
  longitude : JsVal
  deriving Repr, DecidableEq

/-- The map `loc => ({ ...loc, ...parsePositionString(loc.location_position) })`
from `fetchData`. -/
def withCoords (loc : RawLocation) : Location :=
  let p := parsePositionString loc.location_position
  { toRawLocation := loc, latitude := p.latitude, longitude := p.longitude }

/-- JS `Set.prototype.add` on a set represented as its insertion-ordered
element list: adding a present element is a no-op, a fresh element is
appended. -/
def jsSetAdd (s : List Nat) (x : Nat) : List Nat :=
  if s.contains x then s else s ++ [x]

/-- Failure environment for one evaluation: which awaited external calls
throw (`AsyncStorage.setItem`, `updateLocationVisit`, `createTracking`). -/
structure Env where
  storageFails : Bool
  visitFails : Bool
  trackingFails : Bool
  deriving Repr, DecidableEq

/-- The environment in which every external call succeeds. -/
def envOk : Env := { storageFails := false, visitFails := false, trackingFails := false }

/-- Observable side effects of the engine: backend reads and writes,
the content-payload emission (`setCurrentLocationContent`), and the user
alerts. -/
inductive Ev where
  | readProject
  | readLocations
  | remoteVisit (locationId : Nat)
  | tracking (locationId : Nat)
  | contentSet (content : Option String)
  | alertUnlock (name : String)
  | alertError
  | alertReset
  deriving Repr, DecidableEq

/-- Backend-mutating events: the Remote Visit Recorder invocation and the
tracking-record creation. All other events are reads or local UI effects. -/
def Ev.isBackendWrite : Ev → Bool
  | Ev.remoteVisit _ => true
  | Ev.tracking _ => true
  | _ => false

/-- The tracking records held by the backend after a list of events is
performed against an initial record list: each `tracking` event appends a
record. -/
def backendTrackingAfter (records : List Nat) (evs : List Ev) : List Nat :=
  evs.foldl (fun acc e => match e with | Ev.tracking i => acc ++ [i] | _ => acc) records

/-- State of the `ProjectHomeScreen` engine: the parsed location list, the
visited set (the `visitedLocations` state and `visitedLocationsRef`, which
`handleLocationVisit` keeps synchronised), the durable
`visitedLocations_<projectId>` AsyncStorage entry, the `processingRef`
guard flag, and `currentLocationContent` (`none` while never set). -/
structure EngineState where
  locations : List Location
  visited : List Nat
  storage : Option (List Nat)
  processing : Bool
  currentLocationContent : Option (Option String)
  deriving Repr, DecidableEq

/-- Embedding of `handleLocationVisit` (ProjectHomeScreen.jsx lines 256-308).
Already-visited ids return immediately. Otherwise the in-memory set and ref
are updated first; then `AsyncStorage.setItem` is awaited (a throw lands in
the catch block: error alert, nothing rolled back); then
`updateLocationVisit` and `createTracking` are awaited in order (a throw
skips everything after it, including `setCurrentLocationContent`, and lands
in the catch block); finally the content payload is set and the unlock
alert shown. -/
def handleLocationVisit (env : Env) (st : EngineState) (loc : Location) :
    EngineState × List Ev :=
  if st.visited.contains loc.id then (st, [])
  else
    let updatedVisitedSet := jsSetAdd st.visited loc.id
    let st1 := { st with visited := updatedVisitedSet }
    if env.storageFails then (st1, [Ev.alertError])
    else
      let st2 := { st1 with storage := some updatedVisitedSet }
      if env.visitFails then (st2, [Ev.remoteVisit loc.id, Ev.alertError])
      else if env.trackingFails then
        (st2, [Ev.remoteVisit loc.id, Ev.tracking loc.id, Ev.alertError])
      else
        ({ st2 with currentLocationContent := some loc.location_content },
          [Ev.remoteVisit loc.id, Ev.tracking loc.id,
            Ev.contentSet loc.location_content, Ev.alertUnlock loc.location_name])

/-- The fixed continuous-tracking proximity radius (ProjectHomeScreen.jsx
line 225), in metres. -/
def PROXIMITY_RADIUS : ℚ := 50

/-- geolib `getDistance` applied to JS coordinate values: on finite numbers
it is the distance oracle; a `NaN` coordinate propagates to a `NaN`
distance (geolib's arithmetic and rounding keep `NaN`). `null`/`undefined`
coordinates are filtered out before this call in the modelled code path. -/
def jsDistance (dist : ℚ → ℚ → ℚ → ℚ → ℚ) :
    JsVal → JsVal → JsVal → JsVal → JsVal
  | JsVal.num a, JsVal.num b, JsVal.num c, JsVal.num d => JsVal.num (dist a b c d)
  | _, _, _, _ => JsVal.nan

/-- The `for (const loc of locations)` loop of `handleLocationUpdate`
(ProjectHomeScreen.jsx lines 213-237): skip visited ids and `== null`
coordinates; otherwise compute the distance and, when it is within
`PROXIMITY_RADIUS`, set the guard, run `handleLocationVisit`, clear the
guard and break out of the loop. -/
def updateLoop (dist : ℚ → ℚ → ℚ → ℚ → ℚ) (env : Env) (st : EngineState)
    (lat lon : ℚ) : List Location → EngineState × List Ev
  | [] => (st, [])
  | loc :: rest =>
    if st.visited.contains loc.id || loc.latitude.looseEqNull || loc.longitude.looseEqNull then
      updateLoop dist env st lat lon rest
    else if jsLe (jsDistance dist (JsVal.num lat) (JsVal.num lon) loc.latitude loc.longitude)
        PROXIMITY_RADIUS then
      let r := handleLocationVisit env { st with processing := true } loc
      ({ r.1 with processing := false }, r.2)
    else
      updateLoop dist env st lat lon rest

/-- Embedding of `handleLocationUpdate` (ProjectHomeScreen.jsx lines
209-238): a delivery while `processingRef.current` is set returns
immediately, otherwise the location list is scanned in order. -/
def handleLocationUpdate (dist : ℚ → ℚ → ℚ → ℚ → ℚ) (env : Env)
    (st : EngineState) (lat lon : ℚ) : EngineState × List Ev :=
  if st.processing then (st, [])
  else updateLoop dist env st lat lon st.locations

/-- The eligibility test applied to one location by the `updateLoop` scan:
not yet visited, both coordinates not `== null`, and the computed distance
within the radius. -/
def eligibleB (dist : ℚ → ℚ → ℚ → ℚ → ℚ) (visited : List Nat) (lat lon : ℚ)
    (loc : Location) : Bool :=
  !(visited.contains loc.id || loc.latitude.looseEqNull || loc.longitude.looseEqNull) &&
    jsLe (jsDistance dist (JsVal.num lat) (JsVal.num lon) loc.latitude loc.longitude)
      PROXIMITY_RADIUS

/-- Embedding of `calculatePoints` (ProjectHomeScreen.jsx lines 140-151):
fold over the location list adding `Number(loc.score_points) || 0` for the
visited ones. -/
def calculatePoints (locations : List Location) (visited : List Nat) : Int :=
  locations.foldl
    (fun sum loc => if visited.contains loc.id then sum + loc.score_points.getD 0 else sum) 0

/-- JS `string.toLowerCase()` on the app's ASCII scoring strings. -/
def jsToLowerCase (s : String) : String :=
  String.mk (s.toList.map Char.toLower)

/-- Embedding of `getTotalPoints` (api.js lines 296-327) as a pure function
of the project's `participant_scoring` string, its location list and the
visited-id array: a lower-cased scoring type of `sequence` or
`number of locations entered` yields the visited count, `points` yields the
sum of `score_points || 0` over the locations whose id is in the array, and
anything else yields `0`. -/
def getTotalPoints (participant_scoring : String) (locations : List RawLocation)
    (visitedArray : List Nat) : Int :=
  let scoringType := jsToLowerCase participant_scoring
  if scoringType = "sequence" || scoringType = "number of locations entered" then
    (visitedArray.length : Int)
  else if scoringType = "points" then
    ((locations.filter (fun loc => visitedArray.contains loc.id)).foldl
      (fun acc loc => acc + loc.score_points.getD 0) 0)
  else 0

/-- Embedding of `fetchData` (ProjectHomeScreen.jsx lines 81-125) as the
initial engine state: locations are the fetched list with
`parsePositionString` spread on, the visited set is the parsed durable
entry (empty when the key is absent) taken as-is — the code does not filter
it against the fetched location ids — and the guard is idle. -/
def initState (rawLocs : List RawLocation) (stored : Option (List Nat)) : EngineState :=
  { locations := rawLocs.map withCoords
    visited := stored.getD []
    storage := stored
    processing := false
    currentLocationContent := none }

/-- Embedding of `resetVisitedLocations` (ProjectHomeScreen.jsx lines
320-334): the durable entry is removed, the in-memory set and ref are
emptied, a success alert is shown, and `fetchData` re-reads the backend
(project and location reads only; the storage key it then reads back was
just removed, so the visited set stays empty, and the location list is
session-immutable). No backend write is issued. -/
def resetVisitedLocations (st : EngineState) : EngineState × List Ev :=
  ({ st with visited := [], storage := none },
    [Ev.alertReset, Ev.readProject, Ev.readLocations])

/-- Atomic actions of one successful proximity-unlock cycle, in the order
the code performs them. Each `await` in `handleLocationUpdate` /
`handleLocationVisit` completes before the following statement runs, so the
cycle is totally ordered: `processingRef.current = true`; the in-memory set
update; the awaited `AsyncStorage.setItem`; the awaited
`updateLocationVisit` call and its resolution; the awaited `createTracking`
call and its resolution; `setCurrentLocationContent`; and only then
`processingRef.current = false`. -/
inductive Act where
  | guardSet
  | localSetUpdate
  | storageWrite
  | remoteVisitInvoke
  | remoteVisitResolve
  | trackingInvoke
  | trackingResolve
  | contentEmit
  | guardClear
  deriving Repr, DecidableEq

/-- The ordered action list of a successful proximity-unlock cycle, read
off ProjectHomeScreen.jsx lines 231-235 and 256-295. -/
def unlockCycleActs : List Act :=
  [Act.guardSet, Act.localSetUpdate, Act.storageWrite,
    Act.remoteVisitInvoke, Act.remoteVisitResolve,
    Act.trackingInvoke, Act.trackingResolve,
    Act.contentEmit, Act.guardClear]

/-- Session reachability of an engine state, with no constraint on the
durable entry found at initialization: states arise by `fetchData`
initialization from an arbitrary stored entry, by Position updates, and by
resets. `handleLocationVisit` is only ever invoked from inside
`handleLocationUpdate`, so it is not a separate step. -/
inductive Reachable (rawLocs : List RawLocation) : EngineState → Prop where
  | init (stored : Option (List Nat)) : Reachable rawLocs (initState rawLocs stored)
  | update (dist : ℚ → ℚ → ℚ → ℚ → ℚ) (env : Env) (lat lon : ℚ) (st : EngineState) :
      Reachable rawLocs st → Reachable rawLocs (handleLocationUpdate dist env st lat lon).1
  | reset (st : EngineState) :
      Reachable rawLocs st → Reachable rawLocs (resetVisitedLocations st).1

/-- Session reachability restricted to initializations whose durable entry
only holds ids of the fetched locations (the entries this session's own
writes produce). -/
inductive ReachableChecked (rawLocs : List RawLocation) : EngineState → Prop where
  | init (stored : Option (List Nat))
      (h : ∀ i ∈ stored.getD [], i ∈ rawLocs.map RawLocation.id) :
      ReachableChecked rawLocs (initState rawLocs stored)
  | update (dist : ℚ → ℚ → ℚ → ℚ → ℚ) (env : Env) (lat lon : ℚ) (st : EngineState) :
      ReachableChecked rawLocs st →
      ReachableChecked rawLocs (handleLocationUpdate dist env st lat lon).1
  | reset (st : EngineState) :
      ReachableChecked rawLocs st → ReachableChecked rawLocs (resetVisitedLocations st).1

/-- A concrete location with integer coordinates and 10 points, used as a
test fixture. -/
def rawA : RawLocation :=
  { id := 1, location_name := "A", location_position := some "(10, 10)",
    score_points := some 10, location_content := some "contentA" }

/-- A second concrete location at the same coordinates with 5 points. -/
def rawB : RawLocation :=
  { id := 2, location_name := "B", location_position := some "(10, 10)",
    score_points := some 5, location_content := some "contentB" }

/-- A distance oracle reporting distance 0 everywhere (it agrees with the
great-circle distance between identical coordinates). -/
def distZero : ℚ → ℚ → ℚ → ℚ → ℚ := fun _ _ _ _ => 0

/-- Engine state freshly initialized with the two fixture locations and an
absent durable entry. -/
def stTwo : EngineState := initState [rawA, rawB] none

theorem contains_iff_mem (l : List Nat) (x : Nat) : l.contains x = true ↔ x ∈ l := by
  simp

theorem contains_eq_false_iff (l : List Nat) (x : Nat) :
    l.contains x = false ↔ x ∉ l := by
  simp

theorem mem_jsSetAdd (s : List Nat) (x a : Nat) :
    a ∈ jsSetAdd s x ↔ a ∈ s ∨ a = x := by
  unfold jsSetAdd
  by_cases h : x ∈ s
  · simp only [(contains_iff_mem s x).mpr h, if_true]
    constructor
    · exact fun ha => Or.inl ha
    · rintro (ha | rfl)
      · exact ha
      · exact h
  · simp [h]

theorem visit_fst_visited (env : Env) (st : EngineState) (loc : Location) :
    (handleLocationVisit env st loc).1.visited = jsSetAdd st.visited loc.id := by
  unfold handleLocationVisit jsSetAdd
  split_ifs <;> rfl

theorem visit_fst_locations (env : Env) (st : EngineState) (loc : Location) :
    (handleLocationVisit env st loc).1.locations = st.locations := by
  unfold handleLocationVisit
  split_ifs <;> rfl

theorem visit_fst_storage_ok (env : Env) (st : EngineState) (loc : Location)
    (hnew : st.visited.contains loc.id = false) (hstore : env.storageFails = false) :
    (handleLocationVisit env st loc).1.storage = some (jsSetAdd st.visited loc.id) := by
  unfold handleLocationVisit
  split_ifs <;> simp_all

theorem visit_of_mem (env : Env) (st : EngineState) (loc : Location)
    (h : loc.id ∈ st.visited) : handleLocationVisit env st loc = (st, []) := by
  unfold handleLocationVisit
  simp [h]

theorem updateLoop_eq_find (dist : ℚ → ℚ → ℚ → ℚ → ℚ) (env : Env) (st : EngineState)
    (lat lon : ℚ) (locs : List Location) :
    updateLoop dist env st lat lon locs =
      match locs.find? (eligibleB dist st.visited lat lon) with
      | none => (st, [])
      | some c =>
        ({ (handleLocationVisit env { st with processing := true } c).1 with processing := false },
          (handleLocationVisit env { st with processing := true } c).2) := by
  induction locs with
  | nil => simp [updateLoop]
  | cons loc rest ih =>
    by_cases h1 : (st.visited.contains loc.id || loc.latitude.looseEqNull
        || loc.longitude.looseEqNull) = true
    · have he : eligibleB dist st.visited lat lon loc = false := by
        unfold eligibleB
        rw [h1]
        rfl
      rw [updateLoop, if_pos h1, List.find?_cons_of_neg _ (by simp [he]), ih]
    · have h1f : (st.visited.contains loc.id || loc.latitude.looseEqNull
          || loc.longitude.looseEqNull) = false := by simpa using h1
      by_cases h2 : jsLe (jsDistance dist (JsVal.num lat) (JsVal.num lon)
          loc.latitude loc.longitude) PROXIMITY_RADIUS = true
      · have he : eligibleB dist st.visited lat lon loc = true := by
          unfold eligibleB
          rw [h1f, h2]
          rfl
        rw [updateLoop, if_neg h1, if_pos h2, List.find?_cons_of_pos _ he]
      · have h2f : jsLe (jsDistance dist (JsVal.num lat) (JsVal.num lon)
            loc.latitude loc.longitude) PROXIMITY_RADIUS = false := by simpa using h2
        have he : eligibleB dist st.visited lat lon loc = false := by
          unfold eligibleB
          rw [h2f, Bool.and_false]
        rw [updateLoop, if_neg h1, if_neg h2, List.find?_cons_of_neg _ (by simp [he]), ih]

theorem update_fst_visited (dist : ℚ → ℚ → ℚ → ℚ → ℚ) (env : Env)
    (st : EngineState) (lat lon : ℚ) (hproc : st.processing = false) :
    (handleLocationUpdate dist env st lat lon).1.visited =
      match st.locations.find? (eligibleB dist st.visited lat lon) with
      | none => st.visited
      | some c => jsSetAdd st.visited c.id := by
  unfold handleLocationUpdate
  rw [if_neg (by simp [hproc]), updateLoop_eq_find]
  cases hf : st.locations.find? (eligibleB dist st.visited lat lon) with
  | none => rfl
  | some c => simpa using visit_fst_visited env { st with processing := true } c

/-- C1: for every Position update delivered with the guard idle, at most
one location is unlocked — the visited set after the update is unchanged
when no candidate is eligible, and otherwise grows by exactly the id of the
first eligible candidate in the fetched list order; every other eligible
candidate stays unvisited and is still an eligible candidate for a
subsequent update at the same Position. -/
theorem unlock_single_per_update (dist : ℚ → ℚ → ℚ → ℚ → ℚ) (env : Env)
    (st : EngineState) (lat lon : ℚ) (hproc : st.processing = false) :
    ((handleLocationUpdate dist env st lat lon).1.visited =
      match st.locations.find? (eligibleB dist st.visited lat lon) with
      | none => st.visited
      | some c => jsSetAdd st.visited c.id) ∧
    (∀ c b, st.locations.find? (eligibleB dist st.visited lat lon) = some c →
      eligibleB dist st.visited lat lon b = true → b.id ≠ c.id →
      b.id ∉ (handleLocationUpdate dist env st lat lon).1.visited ∧
      eligibleB dist (handleLocationUpdate dist env st lat lon).1.visited lat lon b = true) := by
  refine ⟨update_fst_visited dist env st lat lon hproc, ?_⟩
  intro c b hfind hb hne
  have hb' := hb
  unfold eligibleB at hb'
  rw [Bool.and_eq_true, Bool.not_eq_true'] at hb'
  obtain ⟨hA, hB⟩ := hb'
  simp only [Bool.or_eq_false_iff] at hA
  obtain ⟨⟨hAc, hAlat⟩, hAlon⟩ := hA
  have hbv : b.id ∉ st.visited := (contains_eq_false_iff _ _).mp hAc
  have hv := update_fst_visited dist env st lat lon hproc
  rw [hfind] at hv
  have hnotmem : b.id ∉ (handleLocationUpdate dist env st lat lon).1.visited := by
    rw [hv, mem_jsSetAdd]
    rintro (hmem | heq)
    · exact hbv hmem
    · exact hne heq
  refine ⟨hnotmem, ?_⟩
  have hc2 : (handleLocationUpdate dist env st lat lon).1.visited.contains b.id = false :=
    (contains_eq_false_iff _ _).mpr hnotmem
  unfold eligibleB
  rw [hc2, hAlat, hAlon, hB]
  rfl

/-- Witness for C1: both fixture locations are in range of the update at
(0, 0); only the first (id 1) is unlocked, the second (id 2) stays locked
and remains eligible. -/
theorem unlock_single_per_update_witness :
    (handleLocationUpdate distZero envOk stTwo 0 0).1.visited = [1] ∧
    (2 : Nat) ∉ (handleLocationUpdate distZero envOk stTwo 0 0).1.visited ∧
    eligibleB distZero (handleLocationUpdate distZero envOk stTwo 0 0).1.visited 0 0
      (withCoords rawB) = true := by
  have h := unlock_single_per_update distZero envOk stTwo 0 0 rfl
  have h2 := h.2 (withCoords rawA) (withCoords rawB) (by decide) (by decide) (by decide)
  refine ⟨?_, ?_, h2.2⟩
  · rw [h.1]
    decide
  · have hid : (withCoords rawB).id = 2 := rfl
    rw [← hid]
    exact h2.1

/-- C2: unlocking is idempotent per location id — invoking the unlock
transition for an id already in the visited set is a complete no-op (state
unchanged, no storage write, no remote visit recording, no event at all),
and whatever the first invocation did, a second invocation for the same
location changes nothing further and issues no second remote recording. -/
theorem unlock_idempotent (env1 env2 : Env) (st : EngineState) (loc : Location) :
    (loc.id ∈ st.visited → handleLocationVisit env1 st loc = (st, [])) ∧
    handleLocationVisit env2 (handleLocationVisit env1 st loc).1 loc =
      ((handleLocationVisit env1 st loc).1, []) := by
  refine ⟨fun h => visit_of_mem env1 st loc h, ?_⟩
  apply visit_of_mem
  rw [visit_fst_visited, mem_jsSetAdd]
  exact Or.inr rfl

/-- Witness for C2: after the fixture location is unlocked once, a second
invocation (under an environment whose remote calls would succeed) returns
the state unchanged and performs no side effect. -/
theorem unlock_idempotent_witness :
    handleLocationVisit envOk
        (handleLocationVisit envOk stTwo (withCoords rawA)).1 (withCoords rawA) =
      ((handleLocationVisit envOk stTwo (withCoords rawA)).1, []) ∧
    handleLocationVisit envOk
        { stTwo with visited := [1] } (withCoords rawA) =
      ({ stTwo with visited := [1] }, []) := by
  refine ⟨(unlock_idempotent envOk envOk stTwo (withCoords rawA)).2, ?_⟩
  exact (unlock_idempotent envOk envOk { stTwo with visited := [1] } (withCoords rawA)).1
    (by decide)

/-- C3 counterexample: in the code's unlock cycle the guard clear
(`processingRef.current = false`) comes only after the Remote Visit
Recorder call has resolved (both awaited remote calls precede it), not
before the remote call resolves as the claim states. -/
theorem guard_release_counterexample :
    unlockCycleActs.indexOf Act.remoteVisitResolve < unlockCycleActs.indexOf Act.guardClear ∧
    ¬ unlockCycleActs.indexOf Act.guardClear < unlockCycleActs.indexOf Act.remoteVisitResolve := by
  decide

/-- C3 amended: the guard is held for the whole unlock transition,
including the awaited remote calls, and is released only after they
resolve; a Position update delivered while the guard is set is dropped
outright (no evaluation, no state change, no event), not merely deferred. -/
theorem guard_held_until_remote_resolves (dist : ℚ → ℚ → ℚ → ℚ → ℚ) (env : Env)
    (st : EngineState) (lat lon : ℚ) (h : st.processing = true) :
    unlockCycleActs.indexOf Act.remoteVisitResolve < unlockCycleActs.indexOf Act.guardClear ∧
    unlockCycleActs.indexOf Act.trackingResolve < unlockCycleActs.indexOf Act.guardClear ∧
    handleLocationUpdate dist env st lat lon = (st, []) := by
  refine ⟨by decide, by decide, ?_⟩
  unfold handleLocationUpdate
  rw [if_pos (by simp [h])]

/-- Witness for C3's amended theorem: a concrete busy state (guard set)
drops the incoming update unchanged. -/
theorem guard_held_until_remote_resolves_witness :
    handleLocationUpdate distZero envOk { stTwo with processing := true } 0 0 =
      ({ stTwo with processing := true }, []) :=
  (guard_held_until_remote_resolves distZero envOk { stTwo with processing := true } 0 0 rfl).2.2

/-- A location whose raw position string is malformed with two empty
components: JS parses each empty piece with `Number("")`, which is `0`. -/
def rawMalformed : RawLocation :=
  { id := 4, location_name := "M", location_position := some "(,)",
    score_points := some 3, location_content := none }

/-- C4, evaluated at the failing inputs: the malformed position string
`"(,)"` parses to the concrete coordinates (0, 0) rather than to "no
position", and a Position update at (0, 0) unlocks that location by
proximity; the malformed string `"(abc, def)"` parses to NaN coordinates
which pass the `== null` filter (so a distance to the location is computed
on every update), contradicting the claim that malformed positions are
excluded from proximity evaluation and can never be unlocked. -/
theorem malformed_position_unlockable :
    parsePositionString (some "(,)") = { latitude := JsVal.num 0, longitude := JsVal.num 0 } ∧
    parsePositionString (some "(abc, def)") = { latitude := JsVal.nan, longitude := JsVal.nan } ∧
    JsVal.looseEqNull JsVal.nan = false ∧
    (handleLocationUpdate distZero envOk (initState [rawMalformed] none) 0 0).1.visited = [4] := by
  refine ⟨by decide, by decide, rfl, by decide⟩

theorem foldl_add_getD (l : List RawLocation) (a : Int) :
    l.foldl (fun acc loc => acc + loc.score_points.getD 0) a =
      a + (l.map (fun loc => loc.score_points.getD 0)).sum := by
  induction l generalizing a with
  | nil => simp
  | cons x xs ih =>
    simp only [List.foldl_cons, List.map_cons, List.sum_cons, ih]
    ring

/-- C5: the mode-dispatching score computation gives the sum of the point
values of the visited locations under the `Points` scoring mode and the
visited count under the `Sequence` mode; on the claim's concrete data
(locations with 10 and 5 points, the first visited) it gives 10 under
`Points` and 1 under `Sequence`, and the engine's own points recomputation
agrees on the Points value. -/
theorem scoring_modes (s : String) (locs : List RawLocation) (visited : List Nat) :
    (jsToLowerCase s = "points" →
      getTotalPoints s locs visited =
        ((locs.filter (fun loc => visited.contains loc.id)).map
          (fun loc => loc.score_points.getD 0)).sum) ∧
    (jsToLowerCase s = "sequence" →
      getTotalPoints s locs visited = (visited.length : Int)) ∧
    getTotalPoints "Points" [rawA, rawB] [1] = 10 ∧
    getTotalPoints "Sequence" [rawA, rawB] [1] = 1 ∧
    calculatePoints (List.map withCoords [rawA, rawB]) [1] = 10 := by
    refine ⟨?_, ?_, by decide, by decide, by decide⟩
    · intro h
      unfold getTotalPoints
      rw [h, if_neg (by decide), if_pos (by decide)]
      simpa using foldl_add_getD (locs.filter (fun loc => visited.contains loc.id)) 0
    · intro h
      unfold getTotalPoints
      rw [h, if_pos (by decide)]

/-- Witness for C5: the two mode hypotheses hold and the general equations
evaluate on the claim's concrete data. -/
theorem scoring_modes_witness :
    getTotalPoints "Points" [rawA, rawB] [1] =
      (([rawA, rawB].filter (fun loc => List.contains [1] loc.id)).map
        (fun loc => loc.score_points.getD 0)).sum ∧
    getTotalPoints "Sequence" [rawA, rawB] [1] = (([1] : List Nat).length : Int) :=
  ⟨(scoring_modes "Points" [rawA, rawB] [1]).1 (by decide),
    ((scoring_modes "Sequence" [rawA, rawB] [1]).2).1 (by decide)⟩

/-- C6: a failing Remote Visit Recorder call (either remote step throwing)
does not roll back the local unlock — the id is in the in-memory visited
set, the durable entry holds the updated set, and the recomputed score is
that of the updated visited set. -/
theorem remote_failure_preserves_local (env : Env) (st : EngineState) (loc : Location)
    (hnew : st.visited.contains loc.id = false)
    (hstore : env.storageFails = false)
    (hfail : env.visitFails = true ∨ env.trackingFails = true) :
    (handleLocationVisit env st loc).1.visited = jsSetAdd st.visited loc.id ∧
    loc.id ∈ (handleLocationVisit env st loc).1.visited ∧
    (handleLocationVisit env st loc).1.storage = some (jsSetAdd st.visited loc.id) ∧
    calculatePoints (handleLocationVisit env st loc).1.locations
        (handleLocationVisit env st loc).1.visited =
      calculatePoints st.locations (jsSetAdd st.visited loc.id) := by
  refine ⟨visit_fst_visited env st loc, ?_, visit_fst_storage_ok env st loc hnew hstore, ?_⟩
  · rw [visit_fst_visited, mem_jsSetAdd]
    exact Or.inr rfl
  · rw [visit_fst_visited, visit_fst_locations]

/-- Witness for C6: the fixture location is unlocked while the Remote Visit
Recorder call throws; the local state still carries the unlock. -/
theorem remote_failure_preserves_local_witness :
    (handleLocationVisit { storageFails := false, visitFails := true, trackingFails := false }
        stTwo (withCoords rawA)).1.visited = jsSetAdd stTwo.visited 1 ∧
    (1 : Nat) ∈ (handleLocationVisit
        { storageFails := false, visitFails := true, trackingFails := false }
        stTwo (withCoords rawA)).1.visited ∧
    (handleLocationVisit { storageFails := false, visitFails := true, trackingFails := false }
        stTwo (withCoords rawA)).1.storage = some (jsSetAdd stTwo.visited 1) ∧
    calculatePoints (handleLocationVisit
          { storageFails := false, visitFails := true, trackingFails := false }
          stTwo (withCoords rawA)).1.locations
        (handleLocationVisit { storageFails := false, visitFails := true, trackingFails := false }
          stTwo (withCoords rawA)).1.visited =
      calculatePoints stTwo.locations (jsSetAdd stTwo.visited 1) :=
  remote_failure_preserves_local
    { storageFails := false, visitFails := true, trackingFails := false }
    stTwo (withCoords rawA) (by decide) rfl (Or.inl rfl)

/-- The environment in which the Remote Visit Recorder call
(`updateLocationVisit`) throws and everything else succeeds. -/
def envVisitFails : Env := { storageFails := false, visitFails := true, trackingFails := false }

/-- C7 counterexample: with the Remote Visit Recorder call failing on the
fixture unlock, the emitted events are exactly the remote invocation and
the error alert — no `contentSet` event is emitted and
`currentLocationContent` stays unset, even though the location was locally
unlocked; the claim that the content payload is emitted despite the remote
failure is false on this input. -/
theorem content_suppressed_counterexample :
    (handleLocationVisit envVisitFails stTwo (withCoords rawA)).2 =
      [Ev.remoteVisit 1, Ev.alertError] ∧
    (handleLocationVisit envVisitFails stTwo (withCoords rawA)).1.currentLocationContent
      = none ∧
    (handleLocationVisit envVisitFails stTwo (withCoords rawA)).1.visited = [1] := by
  refine ⟨by decide, by decide, by decide⟩

/-- C7 amended: when either remote step of an unlock transition throws, the
failure is reported (error alert) and the local unlock is kept, but the
content-payload emission is suppressed — `currentLocationContent` is left
unchanged and no `contentSet` event is emitted. -/
theorem remote_failure_suppresses_content (env : Env) (st : EngineState) (loc : Location)
    (hfail : env.visitFails = true ∨ env.trackingFails = true) :
    (handleLocationVisit env st loc).1.currentLocationContent = st.currentLocationContent ∧
    (∀ c, Ev.contentSet c ∉ (handleLocationVisit env st loc).2) ∧
    loc.id ∈ (handleLocationVisit env st loc).1.visited ∧
    (st.visited.contains loc.id = false →
      Ev.alertError ∈ (handleLocationVisit env st loc).2) := by
  refine ⟨?_, ?_, ?_, ?_⟩
  · unfold handleLocationVisit
    split_ifs with h1 h2 h3 h4
    · rfl
    · rfl
    · rfl
    · rfl
    · rcases hfail with h | h
      · exact absurd h h3
      · exact absurd h h4
  · intro c
    unfold handleLocationVisit
    split_ifs with h1 h2 h3 h4
    · simp
    · simp
    · simp
    · simp
    · rcases hfail with h | h
      · exact absurd h h3
      · exact absurd h h4
  · rw [visit_fst_visited, mem_jsSetAdd]
    exact Or.inr rfl
  · intro hnew
    unfold handleLocationVisit
    split_ifs with h1 h2 h3 h4
    · rw [h1] at hnew
      cases hnew
    · simp
    · simp
    · simp
    · rcases hfail with h | h
      · exact absurd h h3
      · exact absurd h h4

/-- Witness for C7's amended theorem: concrete unlock with the remote call
failing — content untouched, unlock kept, failure reported. -/
theorem remote_failure_suppresses_content_witness :
    (handleLocationVisit envVisitFails stTwo (withCoords rawA)).1.currentLocationContent
      = stTwo.currentLocationContent ∧
    (1 : Nat) ∈ (handleLocationVisit envVisitFails stTwo (withCoords rawA)).1.visited := by
  have h := remote_failure_suppresses_content envVisitFails stTwo (withCoords rawA) (Or.inl rfl)
  exact ⟨h.1, h.2.2.1⟩

theorem withCoords_id (r : RawLocation) : (withCoords r).id = r.id := rfl

theorem id_mem_of_mem_map (rawLocs : List RawLocation) (c : Location)
    (h : c ∈ rawLocs.map withCoords) : c.id ∈ rawLocs.map RawLocation.id := by
  obtain ⟨r, hr, rfl⟩ := List.mem_map.mp h
  exact List.mem_map.mpr ⟨r, hr, rfl⟩

theorem update_fst_locations (dist : ℚ → ℚ → ℚ → ℚ → ℚ) (env : Env)
    (st : EngineState) (lat lon : ℚ) :
    (handleLocationUpdate dist env st lat lon).1.locations = st.locations := by
  unfold handleLocationUpdate
  split_ifs with h
  · rfl
  · rw [updateLoop_eq_find]
    cases hf : st.locations.find? (eligibleB dist st.visited lat lon) with
    | none => rfl
    | some c => simpa using visit_fst_locations env { st with processing := true } c

theorem update_fst_visited_cases (dist : ℚ → ℚ → ℚ → ℚ → ℚ) (env : Env)
    (st : EngineState) (lat lon : ℚ) :
    (handleLocationUpdate dist env st lat lon).1.visited = st.visited ∨
    ∃ c ∈ st.locations,
      (handleLocationUpdate dist env st lat lon).1.visited = jsSetAdd st.visited c.id := by
  unfold handleLocationUpdate
  split_ifs with h
  · exact Or.inl rfl
  · rw [updateLoop_eq_find]
    cases hf : st.locations.find? (eligibleB dist st.visited lat lon) with
    | none => exact Or.inl rfl
    | some c =>
      refine Or.inr ⟨c, List.mem_of_find?_eq_some hf, ?_⟩
      simpa using visit_fst_visited env { st with processing := true } c

/-- C8 counterexample: initialization does not filter the durable entry
against the fetched location ids, so a session state whose VisitedSet holds
the id 99 — no location of the project — is reachable from a stale stored
entry. -/
theorem containment_counterexample :
    Reachable [rawA] (initState [rawA] (some [99])) ∧
    99 ∈ (initState [rawA] (some [99])).visited ∧
    99 ∉ (initState [rawA] (some [99])).locations.map (fun l => l.id) := by
  exact ⟨Reachable.init (some [99]), by decide, by decide⟩

/-- C8 amended: provided the durable entry found at initialization holds
only ids of the project's fetched locations, every state reachable by
updates and resets keeps VisitedSet within the ids of the session's
location list; the location list itself never changes. -/
theorem containment_invariant (rawLocs : List RawLocation) (st : EngineState)
    (h : ReachableChecked rawLocs st) :
    st.locations = rawLocs.map withCoords ∧
    ∀ i ∈ st.visited, i ∈ rawLocs.map RawLocation.id := by
  induction h with
  | init stored hs =>
    exact ⟨rfl, by simpa [initState] using hs⟩
  | update dist env lat lon st hr ih =>
    refine ⟨by rw [update_fst_locations]; exact ih.1, ?_⟩
    intro i hi
    rcases update_fst_visited_cases dist env st lat lon with hsame | ⟨c, hc, hadd⟩
    · rw [hsame] at hi
      exact ih.2 i hi
    · rw [hadd, mem_jsSetAdd] at hi
      rcases hi with hi | rfl
      · exact ih.2 i hi
      · rw [ih.1] at hc
        exact id_mem_of_mem_map rawLocs c hc
  | reset st hr ih =>
    exact ⟨ih.1, by simp [resetVisitedLocations]⟩

/-- Witness for C8's amended theorem: a checked initialization whose stored
entry is within the project ids; the invariant instantiates and places id 1
among the location ids. -/
theorem containment_invariant_witness :
    (1 : Nat) ∈ [rawA].map RawLocation.id :=
  (containment_invariant [rawA] (initState [rawA] (some [1]))
    (ReachableChecked.init (some [1]) (by decide))).2 1 (by decide)

/-- Engine state for the threshold check: one fixture location at integer
coordinates (10, 10), nothing visited. -/
def stOne : EngineState := initState [rawA] none

/-- C9: with the tracking radius fixed at 50 metres, a Position whose
distance to the unvisited fixture location is 49 metres unlocks it on the
update, and a Position at 51 metres leaves the engine state untouched and
produces no event. -/
theorem proximity_threshold (dist dist' : ℚ → ℚ → ℚ → ℚ → ℚ)
    (h49 : dist 0 0 10 10 = 49) (h51 : dist' 0 0 10 10 = 51) :
    (handleLocationUpdate dist envOk stOne 0 0).1.visited = [1] ∧
    handleLocationUpdate dist' envOk stOne 0 0 = (stOne, []) := by
  constructor
  · rw [update_fst_visited dist envOk stOne 0 0 rfl]
    have he : eligibleB dist stOne.visited 0 0 (withCoords rawA) = true := by
      unfold eligibleB
      have hd : jsDistance dist (JsVal.num 0) (JsVal.num 0)
          (withCoords rawA).latitude (withCoords rawA).longitude = JsVal.num 49 := by
        have hlat : (withCoords rawA).latitude = JsVal.num 10 := by decide
        have hlon : (withCoords rawA).longitude = JsVal.num 10 := by decide
        rw [hlat, hlon]
        show JsVal.num (dist 0 0 10 10) = JsVal.num 49
        rw [h49]
      rw [hd]
      decide
    have hfind : stOne.locations.find? (eligibleB dist stOne.visited 0 0)
        = some (withCoords rawA) := by
      have : stOne.locations = [withCoords rawA] := rfl
      rw [this, List.find?_cons_of_pos _ he]
    rw [hfind]
    decide
  · unfold handleLocationUpdate
    rw [if_neg (by decide)]
    have he : eligibleB dist' stOne.visited 0 0 (withCoords rawA) = false := by
      unfold eligibleB
      have hd : jsDistance dist' (JsVal.num 0) (JsVal.num 0)
          (withCoords rawA).latitude (withCoords rawA).longitude = JsVal.num 51 := by
        have hlat : (withCoords rawA).latitude = JsVal.num 10 := by decide
        have hlon : (withCoords rawA).longitude = JsVal.num 10 := by decide
        rw [hlat, hlon]
        show JsVal.num (dist' 0 0 10 10) = JsVal.num 51
        rw [h51]
      rw [hd]
      decide
    rw [updateLoop_eq_find]
    have hfind : stOne.locations.find? (eligibleB dist' stOne.visited 0 0) = none := by
      have : stOne.locations = [withCoords rawA] := rfl
      rw [this, List.find?_cons_of_neg _ (by simp [he]), List.find?_nil]
    rw [hfind]

/-- Witness for C9: constant oracles realizing the 49-metre and 51-metre
distances. -/
theorem proximity_threshold_witness :
    (handleLocationUpdate (fun _ _ _ _ => 49) envOk stOne 0 0).1.visited = [1] ∧
    handleLocationUpdate (fun _ _ _ _ => 51) envOk stOne 0 0 = (stOne, []) :=
  proximity_threshold (fun _ _ _ _ => 49) (fun _ _ _ _ => 51) rfl rfl

/-- C10: reset mutates only local state — the resulting engine state is the
previous one with the in-memory VisitedSet emptied and the durable entry
removed (locations, guard and content untouched), every event it performs
is a backend read or a local alert (no backend write), and the backend's
tracking records are unchanged by its events. -/
theorem reset_frame (st : EngineState) (records : List Nat) :
    (resetVisitedLocations st).1 = { st with visited := [], storage := none } ∧
    (resetVisitedLocations st).2.all (fun e => !e.isBackendWrite) = true ∧
    backendTrackingAfter records (resetVisitedLocations st).2 = records := by
  refine ⟨rfl, rfl, rfl⟩
